import Mathlib

/-!
Verification development for the interactive diagnostic console
(src/monitoring/debug-toolkit.py).

The development shallowly embeds the parts of the program that the
specification talks about:

* the captured/interactive execution gateway (`run_command`,
  `run_interactive`, lines 55-83 of the source), modelled against an
  abstract operating-system environment `Env` that maps each command
  string handed to the shell to the behaviour of the spawned process;
* the session state (`DebugToolkit.__init__`, `change_namespace`);
* the command strings each Kubernetes action constructs;
* the rendering of captured output by leaf actions;
* the menu navigation state machine realised by the nested
  `while`/`elif` loops (`main_menu`, `network_menu`, ..., lines 103-604).

Machine integers do not occur (Python exit codes are unbounded ints,
modelled as `Int`; the timeout is a `Nat`).
-/

/-- One output channel of the spawned process. -/
inductive Channel : Type where
  | stdout : Channel
  | stderr : Channel
deriving DecidableEq

/-- Behaviour of the process a command would spawn: how long it runs
(abstract wall-clock units), its exit code, and the ordered sequence of
chunks it writes, each tagged with the channel it goes to.  This is the
abstract model of the operating system side of `subprocess.run`. -/
structure ProcBehavior where
  duration : Nat
  exitCode : Int
  events : List (Channel × String)

/-- What happens when the shell is asked to spawn a command: either a
process runs (`ok`), or the spawn itself fails and Python raises an
exception carrying `msg` (`exn`). -/
inductive SpawnResult : Type where
  | ok : ProcBehavior → SpawnResult
  | exn : String → SpawnResult

/-- The operating-system environment: the behaviour of each command string. -/
def Env : Type := String → SpawnResult

/-- Everything the process wrote to standard output, in order
(what `capture_output=True` collects into `result.stdout`). -/
def capturedStdout (b : ProcBehavior) : String :=
  String.join ((b.events.filter (fun e => e.1 == Channel.stdout)).map (fun e => e.2))

/-- Everything the process wrote to standard error, in order
(what `capture_output=True` collects into `result.stderr`). -/
def capturedStderr (b : ProcBehavior) : String :=
  String.join ((b.events.filter (fun e => e.1 == Channel.stderr)).map (fun e => e.2))

/-- The single stream the process produced across both channels,
chunks in the order the process emitted them. -/
def interleavedOutput (b : ProcBehavior) : String :=
  String.join (b.events.map (fun e => e.2))

/-- Observable outcome of `subprocess.run(cmd, shell=True, capture_output=True,
text=True, timeout=t)`: normal completion with separately captured streams,
a `TimeoutExpired` exception, or some other exception raised at spawn. -/
inductive RunOutcome : Type where
  | completed : Int → String → String → RunOutcome
  | timeoutExpired : RunOutcome
  | exn : String → RunOutcome

/-- Model of `subprocess.run` with `capture_output`: a spawn failure raises;
otherwise the process either finishes within `timeout` (completion with the
two captured streams) or `TimeoutExpired` is raised. -/
def subprocess_run (env : Env) (cmd : String) (timeout : Nat) : RunOutcome :=
  match env cmd with
  | SpawnResult.exn m => RunOutcome.exn m
  | SpawnResult.ok b =>
      if timeout < b.duration then RunOutcome.timeoutExpired
      else RunOutcome.completed b.exitCode (capturedStdout b) (capturedStderr b)

/-- The command string actually handed to the shell by `run_command`
(source lines 57-58): wrapped in an ssh invocation with connect timeout 10
and batch (non-prompting) authentication when a remote host is set,
unchanged otherwise. -/
def captured_wrap (cmd : String) (remote_host : Option String) : String :=
  match remote_host with
  | some h => "ssh -o ConnectTimeout=10 -o BatchMode=yes " ++ h ++ " \x27" ++ cmd ++ "\x27"
  | none => cmd

/-- Model of `run_command` (source lines 55-72): wrap for the remote host if
one is set, run with a 60-unit timeout capturing output, and fold every
failure into the returned pair: `TimeoutExpired` becomes
`(1, "Command timed out")`, any other exception becomes `(1, str(e))`,
and completion returns the exit code with `stdout + stderr`. -/
def run_command (env : Env) (cmd : String) (remote_host : Option String) : Int × String :=
  match subprocess_run env (captured_wrap cmd remote_host) 60 with
  | RunOutcome.completed code out err => (code, out ++ err)
  | RunOutcome.timeoutExpired => (1, "Command timed out")
  | RunOutcome.exn e => (1, e)

/-- The command string handed to the shell by `run_interactive`
(source lines 75-78): wrapped in an ssh invocation with the `-t`
pseudo-terminal allocation flag when a remote host is set,
unchanged otherwise. -/
def interactive_wrap (cmd : String) (remote_host : Option String) : String :=
  match remote_host with
  | some h => "ssh -t " ++ h ++ " \x27" ++ cmd ++ "\x27"
  | none => cmd

/-- Python str.strip() on the whitespace the menu tokens can carry
(executable model; Lean's own String.trim is defined through well-founded
recursion and does not reduce in the kernel). -/
def pyStrip (s : String) : String :=
  ⟨((s.data.dropWhile Char.isWhitespace).reverse.dropWhile Char.isWhitespace).reverse⟩

/-- Python str.lower() on the ASCII menu tokens. -/
def pyLower (s : String) : String :=
  ⟨s.data.map Char.toLower⟩

/-- The console session: active remote target and active namespace
(the mutable fields of `DebugToolkit`, source lines 89-91; the namespace
field is called `nspace` here because `namespace` is reserved in Lean). -/
structure Session where
  remote_host : Option String
  nspace : String

/-- Construction of the toolkit from the startup configuration, including
argparse's handling of the `-n` flag (source lines 608-617): an absent
flag (`none`) yields the default namespace `"default"`. -/
def mkToolkit (remote : Option String) (nsArg : Option String) : Session :=
  ⟨remote, nsArg.getD "default"⟩

/-- Model of `DebugToolkit.change_namespace` (source lines 560-567): the
namespace becomes exactly the stripped operator input, with no fallback. -/
def change_namespace (s : Session) (userInput : String) : Session :=
  { s with nspace := pyStrip userInput }

/-- Command built by `k8s_pod_status` (source line 498). -/
def k8s_pod_status_cmd (s : Session) : String :=
  "kubectl get pods -n " ++ s.nspace ++ " -o wide"

/-- Pod-listing command built by `k8s_logs` (source line 503). -/
def k8s_logs_list_cmd (s : Session) : String :=
  "kubectl get pods -n " ++ s.nspace ++ " --no-headers"

/-- Log-tail command built by `k8s_logs` (source line 519). -/
def k8s_logs_tail_cmd (s : Session) (pod cflag : String) : String :=
  "kubectl logs " ++ pod ++ " -n " ++ s.nspace ++ " " ++ cflag ++ " --tail=100"

/-- Command built by `k8s_exec` (source line 531). -/
def k8s_exec_cmd (s : Session) (pod shell : String) : String :=
  "kubectl exec -it " ++ pod ++ " -n " ++ s.nspace ++ " -- " ++ shell

/-- Command built by `k8s_describe` (source line 537). -/
def k8s_describe_cmd (s : Session) (resource rname : String) : String :=
  "kubectl describe " ++ resource ++ " " ++ rname ++ " -n " ++ s.nspace ++ " | less"

/-- Command built by `k8s_port_forward` (source line 544). -/
def k8s_port_forward_cmd (s : Session) (pod ports : String) : String :=
  "kubectl port-forward " ++ pod ++ " -n " ++ s.nspace ++ " " ++ ports

/-- Command built by `k8s_events` (source line 548). -/
def k8s_events_cmd (s : Session) : String :=
  "kubectl get events -n " ++ s.nspace ++ " --sort-by=\x27.lastTimestamp\x27 | tail -30"

/-- First command built by `k8s_nodes` (source line 553);
it takes the session but reads no field of it. -/
def k8s_nodes_cmd1 (s : Session) : String :=
  "kubectl get nodes -o wide"

/-- Second command built by `k8s_nodes` (source line 557);
it takes the session but reads no field of it. -/
def k8s_nodes_cmd2 (s : Session) : String :=
  "kubectl get nodes -o jsonpath=\x27\x7brange .items[*]\x7d\x7b.metadata.name\x7d: \x7b.status.conditions[-1].type\x7d=\x7b.status.conditions[-1].status\x7d\x7b\"\\n\"\x7d\x7bend\x7d\x27"

/-- Substring containment between strings, stated on the underlying
character lists. -/
def strContains (s pat : String) : Prop :=
  ∃ u v : List Char, u ++ pat.data ++ v = s.data

instance strContainsDecidable (s pat : String) : Decidable (strContains s pat) :=
  inferInstanceAs (Decidable (pat.data <:+: s.data))

/-- Rendering of captured output by `find_process` (source line 249):
non-empty output verbatim, a placeholder when empty. -/
def find_process_render (output : String) : String :=
  if output ≠ "" then output else "No matching processes"

/-- Rendering of captured output by `k8s_pod_status` (source line 499):
the output is printed verbatim, also when empty. -/
def k8s_pod_status_render (output : String) : String :=
  output

/-- Rendering of captured output by `show_connections` (source line 178):
the output is printed verbatim, also when empty. -/
def show_connections_render (output : String) : String :=
  output

mutual
/-- One screen of the menu hierarchy: a title and an ordered list of
selectable entries (the `print` block plus `elif` chain of one loop). -/
inductive Menu : Type where
  | node : String → List MenuEntry → Menu

/-- One selectable entry: either a key opening a child menu, or a key
invoking a leaf diagnostic action (named by the method it calls). -/
inductive MenuEntry : Type where
  | submenu : String → Menu → MenuEntry
  | leaf : String → String → MenuEntry
end

/-- The entries of a menu. -/
def Menu.entries : Menu → List MenuEntry
  | Menu.node _ es => es

/-- The key of an entry. -/
def MenuEntry.key : MenuEntry → String
  | MenuEntry.submenu k _ => k
  | MenuEntry.leaf k _ => k

/-- Look an input token up in an entry list, mirroring the `elif` chain:
the first entry whose key equals the token. -/
def findEntry (k : String) (es : List MenuEntry) : Option MenuEntry :=
  es.find? (fun e => e.key == k)

/-- Navigation state: the menu currently displayed and the stack of
menus it was reached through (root at the bottom), which the source
realises through the nesting of its `while` loops. -/
structure NavState where
  cur : Menu
  parents : List Menu

/-- Result of feeding one input line to the navigator. -/
inductive StepResult : Type where
  | cont : NavState → StepResult
  | quit : StepResult

/-- One iteration of a menu loop on one input line (source lines 117-134,
217-234, 300-315, 397-414, 476-495, 590-604): strip the line, dispatch on
the entry keys first; `b` pops the current menu (at the root it matches no
branch, so nothing changes); `q` terminates at the root (below the root it
matches no branch); anything unrecognized re-renders the same menu. -/
def step (s : NavState) (line : String) : StepResult :=
  match findEntry (pyStrip line) s.cur.entries with
  | some (MenuEntry.submenu _ m) => StepResult.cont ⟨m, s.cur :: s.parents⟩
  | some (MenuEntry.leaf _ _) => StepResult.cont s
  | none =>
    if pyLower (pyStrip line) == "b" then
      match s.parents with
      | [] => StepResult.cont s
      | p :: ps => StepResult.cont ⟨p, ps⟩
    else if pyLower (pyStrip line) == "q" then
      match s.parents with
      | [] => StepResult.quit
      | _ :: _ => StepResult.cont s
    else StepResult.cont s

/-- Feed a list of input lines to the navigator; `none` if `q` was hit
at the root along the way. -/
def stepMany : NavState → List String → Option NavState
  | s, [] => some s
  | s, line :: rest =>
    match step s line with
    | StepResult.quit => none
    | StepResult.cont s2 => stepMany s2 rest

/-- The interactive loop over a finite list of input lines, started at
some state.  It returns `some remaining` when `q` terminates it at the
root, with `remaining` the lines it never read; `none` models the input
being exhausted before a quit (an `EOFError` the source does not catch,
outside the behaviour claimed here). -/
def mainLoop : NavState → List String → Option (List String)
  | _, [] => none
  | s, line :: rest =>
    match step s line with
    | StepResult.quit => some rest
    | StepResult.cont s2 => mainLoop s2 rest

/-- The network debugging menu (source lines 103-134). -/
def networkMenu : Menu :=
  Menu.node "Network Debugging"
    [MenuEntry.leaf "1" "ping_test", MenuEntry.leaf "2" "port_scan",
     MenuEntry.leaf "3" "dns_test", MenuEntry.leaf "4" "traceroute",
     MenuEntry.leaf "5" "show_connections", MenuEntry.leaf "6" "interface_stats",
     MenuEntry.leaf "7" "tcpdump_capture"]

/-- The process debugging menu (source lines 203-234). -/
def processMenu : Menu :=
  Menu.node "Process Debugging"
    [MenuEntry.leaf "1" "top_by_cpu", MenuEntry.leaf "2" "top_by_memory",
     MenuEntry.leaf "3" "find_process", MenuEntry.leaf "4" "strace_process",
     MenuEntry.leaf "5" "open_files", MenuEntry.leaf "6" "thread_analysis",
     MenuEntry.leaf "7" "zombie_processes"]

/-- The log analysis menu (source lines 287-315). -/
def logMenu : Menu :=
  Menu.node "Log Analysis"
    [MenuEntry.leaf "1" "journalctl_menu", MenuEntry.leaf "2" "auth_logs",
     MenuEntry.leaf "3" "dmesg_logs", MenuEntry.leaf "4" "search_logs",
     MenuEntry.leaf "5" "failed_services", MenuEntry.leaf "6" "recent_errors"]

/-- The resource analysis menu (source lines 383-414). -/
def resourceMenu : Menu :=
  Menu.node "Resource Analysis"
    [MenuEntry.leaf "1" "top", MenuEntry.leaf "2" "memory_details",
     MenuEntry.leaf "3" "iotop", MenuEntry.leaf "4" "disk_usage",
     MenuEntry.leaf "5" "memory_pressure", MenuEntry.leaf "6" "cpu_info",
     MenuEntry.leaf "7" "io_stats"]

/-- The Kubernetes debugging menu (source lines 461-495). -/
def k8sMenu : Menu :=
  Menu.node "Kubernetes Debugging"
    [MenuEntry.leaf "1" "k8s_pod_status", MenuEntry.leaf "2" "k8s_logs",
     MenuEntry.leaf "3" "k8s_exec", MenuEntry.leaf "4" "k8s_describe",
     MenuEntry.leaf "5" "k8s_port_forward", MenuEntry.leaf "6" "k8s_events",
     MenuEntry.leaf "7" "k8s_nodes", MenuEntry.leaf "8" "change_namespace"]

/-- The main menu (source lines 573-604). -/
def rootMenu : Menu :=
  Menu.node "Debug Toolkit"
    [MenuEntry.submenu "1" networkMenu, MenuEntry.submenu "2" processMenu,
     MenuEntry.submenu "3" logMenu, MenuEntry.submenu "4" resourceMenu,
     MenuEntry.submenu "5" k8sMenu]

/-- Initial navigation state: the root menu alone on the stack. -/
def rootState : NavState :=
  ⟨rootMenu, []⟩

/-- The console's process exit status over a finite input list: `main()`
calls `main_menu()` and then returns, so the interpreter exits 0 whenever
the loop terminates through `q`; the results of diagnostic sub-commands
(the `env` argument) are only ever printed, never turned into an exit
status, so the exit status does not depend on `env` at all.  `none`
models abnormal termination by input exhaustion. -/
def consoleExitCode (env : Env) (inputs : List String) : Option Nat :=
  match mainLoop rootState inputs with
  | some _ => some 0
  | none => none

/-- A list of input tokens each of which selects a SubMenu entry of the
menu reached by the previous tokens (the "sequence of valid SubMenu keys"
of the specification). -/
def validSubMenuKeys : NavState → List String → Bool
  | _, [] => true
  | s, k :: ks =>
    match findEntry (pyStrip k) s.cur.entries with
    | some (MenuEntry.submenu _ m) => validSubMenuKeys ⟨m, s.cur :: s.parents⟩ ks
    | _ => false

/-- No entry of the list carries one of the reserved keys `b`, `q`. -/
def entriesNoReserved (es : List MenuEntry) : Bool :=
  es.all (fun e => e.key != "b" && e.key != "q")

/-- The menus that occur in the console's fixed menu tree. -/
def treeMenu (m : Menu) : Prop :=
  m = rootMenu ∨ m = networkMenu ∨ m = processMenu ∨ m = logMenu ∨
    m = resourceMenu ∨ m = k8sMenu

theorem strContains_parts (s pat : String) (u v : List Char)
    (h : u ++ pat.data ++ v = s.data) : strContains s pat :=
  ⟨u, v, h⟩

theorem splitPods : ("kubectl get pods -n ").data = ("kubectl get pods ").data ++ ("-n ").data := rfl

theorem splitEvents : ("kubectl get events -n ").data = ("kubectl get events ").data ++ ("-n ").data := rfl

theorem splitSpace : (" -n ").data = (" ").data ++ ("-n ").data := rfl

theorem k8s_pod_status_cmd_contains (s : Session) :
    strContains (k8s_pod_status_cmd s) ("-n " ++ s.nspace) := by
  refine strContains_parts _ _ ("kubectl get pods ").data (" -o wide").data ?_
  simp only [k8s_pod_status_cmd, String.data_append, splitPods, List.append_assoc]
  rfl

theorem k8s_logs_list_cmd_contains (s : Session) :
    strContains (k8s_logs_list_cmd s) ("-n " ++ s.nspace) := by
  refine strContains_parts _ _ ("kubectl get pods ").data (" --no-headers").data ?_
  simp only [k8s_logs_list_cmd, String.data_append, splitPods, List.append_assoc]
  rfl

theorem k8s_logs_tail_cmd_contains (s : Session) (pod cflag : String) :
    strContains (k8s_logs_tail_cmd s pod cflag) ("-n " ++ s.nspace) := by
  refine strContains_parts _ _ (("kubectl logs ").data ++ pod.data ++ (" ").data)
    ((" ").data ++ cflag.data ++ (" --tail=100").data) ?_
  simp only [k8s_logs_tail_cmd, String.data_append, splitSpace, List.append_assoc]
  rfl

theorem k8s_exec_cmd_contains (s : Session) (pod shell : String) :
    strContains (k8s_exec_cmd s pod shell) ("-n " ++ s.nspace) := by
  refine strContains_parts _ _ (("kubectl exec -it ").data ++ pod.data ++ (" ").data)
    ((" -- ").data ++ shell.data) ?_
  simp only [k8s_exec_cmd, String.data_append, splitSpace, List.append_assoc]
  rfl

theorem k8s_describe_cmd_contains (s : Session) (resource rname : String) :
    strContains (k8s_describe_cmd s resource rname) ("-n " ++ s.nspace) := by
  refine strContains_parts _ _
    (("kubectl describe ").data ++ resource.data ++ (" ").data ++ rname.data ++ (" ").data)
    ((" | less").data) ?_
  simp only [k8s_describe_cmd, String.data_append, splitSpace, List.append_assoc]
  rfl

theorem k8s_port_forward_cmd_contains (s : Session) (pod ports : String) :
    strContains (k8s_port_forward_cmd s pod ports) ("-n " ++ s.nspace) := by
  refine strContains_parts _ _ (("kubectl port-forward ").data ++ pod.data ++ (" ").data)
    ((" ").data ++ ports.data) ?_
  simp only [k8s_port_forward_cmd, String.data_append, splitSpace, List.append_assoc]
  rfl

theorem k8s_events_cmd_contains (s : Session) :
    strContains (k8s_events_cmd s) ("-n " ++ s.nspace) := by
  refine strContains_parts _ _ ("kubectl get events ").data
    (" --sort-by=\x27.lastTimestamp\x27 | tail -30").data ?_
  simp only [k8s_events_cmd, String.data_append, splitEvents, List.append_assoc]
  rfl

theorem findEntry_b_none {es : List MenuEntry} (h : entriesNoReserved es = true) :
    findEntry "b" es = none := by
  cases hf : findEntry "b" es with
  | none => rfl
  | some e =>
    have hf2 : es.find? (fun x => x.key == "b") = some e := hf
    have hm : e ∈ es := List.mem_of_find?_eq_some hf2
    have hp := List.find?_some hf2
    have hk : e.key = "b" := by simpa using hp
    have ho := List.all_eq_true.mp h e hm
    rw [hk] at ho
    simp at ho

theorem findEntry_submenu_treeMenu {m : Menu} {k kk : String} {m2 : Menu}
    (hm : treeMenu m) (hf : findEntry k m.entries = some (MenuEntry.submenu kk m2)) :
    treeMenu m2 := by
  have hmem : MenuEntry.submenu kk m2 ∈ m.entries := List.mem_of_find?_eq_some hf
  rcases hm with h | h | h | h | h | h <;> subst h <;>
    simp only [rootMenu, networkMenu, processMenu, logMenu, resourceMenu, k8sMenu,
      Menu.entries, List.mem_cons, List.not_mem_nil, or_false,
      MenuEntry.submenu.injEq, reduceCtorEq] at hmem
  · rcases hmem with ⟨h1, h2⟩ | ⟨h1, h2⟩ | ⟨h1, h2⟩ | ⟨h1, h2⟩ | ⟨h1, h2⟩ <;> subst h2
    · exact Or.inr (Or.inl rfl)
    · exact Or.inr (Or.inr (Or.inl rfl))
    · exact Or.inr (Or.inr (Or.inr (Or.inl rfl)))
    · exact Or.inr (Or.inr (Or.inr (Or.inr (Or.inl rfl))))
    · exact Or.inr (Or.inr (Or.inr (Or.inr (Or.inr rfl))))

theorem treeMenu_no_reserved {m : Menu} (hm : treeMenu m) :
    entriesNoReserved m.entries = true := by
  rcases hm with h | h | h | h | h | h <;> subst h <;> decide

theorem stepMany_append (xs ys : List String) :
    ∀ s : NavState, stepMany s (xs ++ ys) =
      (stepMany s xs).bind (fun s2 => stepMany s2 ys) := by
  induction xs with
  | nil => intro s; rfl
  | cons x xs ih =>
    intro s
    rw [List.cons_append]
    simp only [stepMany]
    cases step s x with
    | quit => rfl
    | cont s2 => exact ih s2

theorem step_pop {m p : Menu} {ps : List Menu}
    (hb : entriesNoReserved m.entries = true) :
    step ⟨m, p :: ps⟩ "b" = StepResult.cont ⟨p, ps⟩ := by
  have hfb : findEntry (pyStrip "b") m.entries = none := by
    rw [show pyStrip "b" = "b" from by decide]
    exact findEntry_b_none hb
  simp only [step, hfb]
  rfl

theorem stepMany_push_pop :
    ∀ (keys : List String) (s : NavState), treeMenu s.cur →
      validSubMenuKeys s keys = true →
      stepMany s (keys ++ List.replicate keys.length "b") = some s := by
  intro keys
  induction keys with
  | nil => intro s _ _; rfl
  | cons k ks ih =>
    intro s htree hv
    obtain ⟨cur, parents⟩ := s
    simp only [validSubMenuKeys] at hv
    split at hv
    case h_2 => exact absurd hv (by simp)
    case h_1 kk m hfe =>
    have htree2 : treeMenu m := findEntry_submenu_treeMenu htree hfe
    have hstep : step ⟨cur, parents⟩ k = StepResult.cont ⟨m, cur :: parents⟩ := by
      simp only [step, hfe]
    rw [List.length_cons, List.replicate_succ', List.cons_append]
    simp only [stepMany, hstep]
    rw [← List.append_assoc, stepMany_append, ih ⟨m, cur :: parents⟩ htree2 hv]
    simp [Option.bind, stepMany, step_pop (treeMenu_no_reserved htree2)]

/-- An environment whose process runs for 1000 units, far over the budget. -/
def envSleep : Env := fun _ => SpawnResult.ok ⟨1000, 0, []⟩

/-- An environment in which every spawn raises an exception. -/
def envExn : Env := fun _ => SpawnResult.exn "No such file or directory"

/-- An environment whose process exits 3 immediately, writing nothing. -/
def envExit3 : Env := fun _ => SpawnResult.ok ⟨0, 3, []⟩

/-- A process writing stdout "a", stderr "b", stdout "c", in that order. -/
def procInterleave : ProcBehavior :=
  ⟨0, 0, [(Channel.stdout, "a"), (Channel.stderr, "b"), (Channel.stdout, "c")]⟩

/-- An environment running `procInterleave` for every command. -/
def envInterleave : Env := fun _ => SpawnResult.ok procInterleave

/-- An environment in which exactly the unwrapped command "echo hi"
succeeds, printing "hi"; every other command string fails to spawn. -/
def envEcho : Env := fun c =>
  if c = "echo hi" then SpawnResult.ok ⟨0, 0, [(Channel.stdout, "hi\n")]⟩
  else SpawnResult.exn "ssh: Could not resolve hostname"

/-- The session after the change-namespace action switches to "staging". -/
def sStaging : Session := change_namespace (mkToolkit none none) "staging"

/-- C1, counterexample: a command that itself exits 3 while producing no
output at all is returned as exit code 3 with empty combinedOutput, so a
non-zero exit is not always accompanied by non-empty diagnostic text. -/
theorem c1_counterexample :
    (run_command envExit3 "quiet-tool" none).1 = 3
    ∧ (run_command envExit3 "quiet-tool" none).2 = "" :=
  ⟨rfl, rfl⟩

/-- C1, amended: run_command is total and never raises: a spawn exception
with message m folds to (1, m), a timeout folds to (1, "Command timed out")
whose text is non-empty, and a completed process has its exit code passed
through unchanged with its captured stdout followed by stderr, which may
be empty. -/
theorem c1_fold_semantics (env : Env) (cmd : String) (host : Option String) :
    (∀ m, env (captured_wrap cmd host) = SpawnResult.exn m →
      run_command env cmd host = (1, m))
    ∧ (∀ b, env (captured_wrap cmd host) = SpawnResult.ok b → 60 < b.duration →
      run_command env cmd host = (1, "Command timed out")
        ∧ (run_command env cmd host).2 ≠ "")
    ∧ (∀ b, env (captured_wrap cmd host) = SpawnResult.ok b → b.duration ≤ 60 →
      run_command env cmd host = (b.exitCode, capturedStdout b ++ capturedStderr b)) := by
  refine ⟨?_, ?_, ?_⟩
  · intro m hm
    simp [run_command, subprocess_run, hm]
  · intro b hb hd
    have h1 : run_command env cmd host = (1, "Command timed out") := by
      simp [run_command, subprocess_run, hb, hd]
    exact ⟨h1, by rw [h1]; decide⟩
  · intro b hb hd
    simp [run_command, subprocess_run, hb, Nat.not_lt.mpr hd]

/-- Witness for c1_fold_semantics at three concrete environments. -/
theorem c1_fold_semantics_witness :
    run_command envExn "lsoff -p 80" none = (1, "No such file or directory")
    ∧ run_command envSleep "sleep 999" none = (1, "Command timed out")
    ∧ run_command envExit3 "quiet-tool2" none = (3, "") := by
  refine ⟨(c1_fold_semantics envExn "lsoff -p 80" none).1 _ rfl,
    ((c1_fold_semantics envSleep "sleep 999" none).2.1 ⟨1000, 0, []⟩ rfl (by norm_num)).1, ?_⟩
  exact (c1_fold_semantics envExit3 "quiet-tool2" none).2.2 ⟨0, 3, []⟩ rfl (by norm_num)

/-- C2: a captured execution whose process exceeds the fixed 60-unit budget
returns (1, "Command timed out"), a non-zero exit code, rather than
blocking indefinitely. -/
theorem c2_timeout (env : Env) (cmd : String) (host : Option String) (b : ProcBehavior)
    (henv : env (captured_wrap cmd host) = SpawnResult.ok b)
    (hdur : 60 < b.duration) :
    run_command env cmd host = (1, "Command timed out")
    ∧ (run_command env cmd host).1 ≠ 0 := by
  have h1 : run_command env cmd host = (1, "Command timed out") := by
    simp [run_command, subprocess_run, henv, hdur]
  exact ⟨h1, by rw [h1]; decide⟩

/-- Witness for c2_timeout: a process running 1000 units. -/
theorem c2_timeout_witness :
    envSleep (captured_wrap "sleep 999" none) = SpawnResult.ok ⟨1000, 0, []⟩
    ∧ (run_command envSleep "sleep 999" none = (1, "Command timed out")
       ∧ (run_command envSleep "sleep 999" none).1 ≠ 0) :=
  ⟨rfl, c2_timeout envSleep "sleep 999" none ⟨1000, 0, []⟩ rfl (by norm_num)⟩

/-- C3: a command is wrapped if and only if a remote target is set: captured
mode wraps it in an ssh invocation with ConnectTimeout=10 and BatchMode=yes
addressed to the target, interactive mode wraps it in ssh -t; with no
target both modes hand the string over unchanged, as the echo scenario
shows end to end. -/
theorem c3_wrapping (cmd h : String) :
    captured_wrap cmd (some h) =
      "ssh -o ConnectTimeout=10 -o BatchMode=yes " ++ h ++ " \x27" ++ cmd ++ "\x27"
    ∧ interactive_wrap cmd (some h) = "ssh -t " ++ h ++ " \x27" ++ cmd ++ "\x27"
    ∧ captured_wrap cmd none = cmd
    ∧ interactive_wrap cmd none = cmd
    ∧ run_command envEcho "echo hi" none = (0, "hi\n")
    ∧ strContains (run_command envEcho "echo hi" none).2 "hi"
    ∧ captured_wrap "echo hi" (some "host1") =
      "ssh -o ConnectTimeout=10 -o BatchMode=yes host1 \x27echo hi\x27" :=
  ⟨rfl, rfl, rfl, rfl, by decide, by decide, rfl⟩

/-- C4, counterexample: a process interleaving stdout "a", stderr "b",
stdout "c" yields combinedOutput "acb", not the interleaved stream "abc":
capture concatenates the two whole streams and loses the interleaving. -/
theorem c4_counterexample :
    (run_command envInterleave "prog" none).2 = "acb"
    ∧ interleavedOutput procInterleave = "abc"
    ∧ (run_command envInterleave "prog" none).2 ≠ interleavedOutput procInterleave :=
  ⟨by decide, by decide, by decide⟩

/-- C4, amended: combinedOutput of a completed captured execution is the
whole captured stdout stream followed by the whole captured stderr stream,
both channels in one string. -/
theorem c4_output_concat (env : Env) (cmd : String) (host : Option String)
    (b : ProcBehavior) (henv : env (captured_wrap cmd host) = SpawnResult.ok b)
    (hdur : b.duration ≤ 60) :
    (run_command env cmd host).2 = capturedStdout b ++ capturedStderr b := by
  simp [run_command, subprocess_run, henv, Nat.not_lt.mpr hdur]

/-- Witness for c4_output_concat at the interleaving environment. -/
theorem c4_output_concat_witness :
    envInterleave (captured_wrap "prog2" none) = SpawnResult.ok procInterleave
    ∧ (run_command envInterleave "prog2" none).2 = "acb" :=
  ⟨rfl, c4_output_concat envInterleave "prog2" none procInterleave rfl (by decide)⟩

/-- C5, counterexample: in the state reached after the change-namespace
action receives a blank line, the namespace is the empty string: the code
has no fallback to "default". -/
theorem c5_counterexample :
    (change_namespace (mkToolkit none none) "   ").nspace = "" := by decide

/-- C5, amended: the namespace starts as "default" when the -n flag is
absent, and the change-namespace action sets it to exactly the stripped
operator input, so blank input makes it empty. -/
theorem c5_namespace_behavior (r : Option String) (s : Session) (inp : String) :
    (mkToolkit r none).nspace = "default"
    ∧ (change_namespace s inp).nspace = pyStrip inp :=
  ⟨rfl, rfl⟩

set_option maxRecDepth 8192 in
/-- C6, counterexample: with the active namespace "staging" (set through the
change-namespace action), neither command constructed by the node-status
Kubernetes action mentions "staging", and the first carries no -n flag at
all. -/
theorem c6_counterexample :
    sStaging.nspace = "staging"
    ∧ ¬ strContains (k8s_nodes_cmd1 sStaging) "staging"
    ∧ ¬ strContains (k8s_nodes_cmd1 sStaging) "-n "
    ∧ ¬ strContains (k8s_nodes_cmd2 sStaging) "staging" :=
  ⟨by decide, by decide, by decide, by decide⟩

/-- C6, amended: every namespaced Kubernetes action embeds the active
namespace behind the -n flag in its constructed command; the cluster-scoped
node-status action is the exception and carries no namespace; after the
change-namespace action switches to "staging", the pod-status command
contains "staging" and not "default". -/
theorem c6_namespace_flag (s : Session) (pod cflag shell resource rname ports : String) :
    strContains (k8s_pod_status_cmd s) ("-n " ++ s.nspace)
    ∧ strContains (k8s_logs_list_cmd s) ("-n " ++ s.nspace)
    ∧ strContains (k8s_logs_tail_cmd s pod cflag) ("-n " ++ s.nspace)
    ∧ strContains (k8s_exec_cmd s pod shell) ("-n " ++ s.nspace)
    ∧ strContains (k8s_describe_cmd s resource rname) ("-n " ++ s.nspace)
    ∧ strContains (k8s_port_forward_cmd s pod ports) ("-n " ++ s.nspace)
    ∧ strContains (k8s_events_cmd s) ("-n " ++ s.nspace)
    ∧ k8s_pod_status_cmd sStaging = "kubectl get pods -n staging -o wide"
    ∧ strContains (k8s_pod_status_cmd sStaging) "staging"
    ∧ ¬ strContains (k8s_pod_status_cmd sStaging) "default" :=
  ⟨k8s_pod_status_cmd_contains s, k8s_logs_list_cmd_contains s,
   k8s_logs_tail_cmd_contains s pod cflag, k8s_exec_cmd_contains s pod shell,
   k8s_describe_cmd_contains s resource rname, k8s_port_forward_cmd_contains s pod ports,
   k8s_events_cmd_contains s, by decide, by decide, by decide⟩

/-- C7: from the root menu, any sequence of k valid SubMenu keys followed by
k "b" keys navigates back to exactly the root state, and one further "b"
received at the root is a no-op rather than an error. -/
theorem c7_push_pop (keys : List String)
    (h : validSubMenuKeys rootState keys = true) :
    stepMany rootState (keys ++ List.replicate keys.length "b") = some rootState
    ∧ step rootState "b" = StepResult.cont rootState :=
  ⟨stepMany_push_pop keys rootState (Or.inl rfl) h, rfl⟩

/-- Witness for c7_push_pop: push the network menu with "1", pop with "b". -/
theorem c7_push_pop_witness :
    validSubMenuKeys rootState ["1"] = true
    ∧ (stepMany rootState (["1"] ++ List.replicate 1 "b") = some rootState
       ∧ step rootState "b" = StepResult.cont rootState) :=
  ⟨by decide, c7_push_pop ["1"] (by decide)⟩

/-- C8: "q" received at the root halts the loop at once, leaving every
subsequent input line unread, and the console's exit status is 0 no matter
what any diagnostic sub-command returned. -/
theorem c8_quit (env : Env) (rest : List String) :
    mainLoop rootState ("q" :: rest) = some rest
    ∧ consoleExitCode env ("q" :: rest) = some 0 :=
  ⟨rfl, rfl⟩

/-- C9, counterexample: the pod-status and connections actions render empty
captured output as the empty string with no placeholder, while find_process
does substitute one: the placeholder rule does not hold for every leaf
action. -/
theorem c9_counterexample :
    k8s_pod_status_render "" = ""
    ∧ show_connections_render "" = ""
    ∧ find_process_render "" = "No matching processes" :=
  ⟨rfl, rfl, by decide⟩

/-- C9, amended: find_process renders non-empty output verbatim and
substitutes its placeholder exactly when the output is empty, while
pod-status and connections render verbatim in every case, including the
empty one. -/
theorem c9_render (o : String) (h : o ≠ "") :
    find_process_render o = o
    ∧ find_process_render "" = "No matching processes"
    ∧ k8s_pod_status_render o = o
    ∧ k8s_pod_status_render "" = ""
    ∧ show_connections_render o = o
    ∧ show_connections_render "" = "" :=
  ⟨if_pos h, by decide, rfl, rfl, rfl, rfl⟩

/-- Witness for c9_render at a non-empty output. -/
theorem c9_render_witness :
    ("root 1 0.0" : String) ≠ "" ∧ find_process_render "root 1 0.0" = "root 1 0.0" :=
  ⟨by decide, (c9_render "root 1 0.0" (by decide)).1⟩

/-- C10: a timed-out captured execution returns exactly
(1, "Command timed out"), and a spawn exception returns exit code 1 with
the exception text, so the two kinds of folded failure share the exit code
1 and are distinguishable only by their output text. -/
theorem c10_failure_codes (env : Env) (cmd : String) (host : Option String) :
    (∀ b, env (captured_wrap cmd host) = SpawnResult.ok b → 60 < b.duration →
      run_command env cmd host = (1, "Command timed out"))
    ∧ (∀ m, env (captured_wrap cmd host) = SpawnResult.exn m →
      (run_command env cmd host).1 = 1 ∧ (run_command env cmd host).2 = m) := by
  constructor
  · intro b hb hd
    simp [run_command, subprocess_run, hb, hd]
  · intro m hm
    constructor
    · simp [run_command, subprocess_run, hm]
    · simp [run_command, subprocess_run, hm]

/-- Witness for c10_failure_codes at concrete environments. -/
theorem c10_failure_codes_witness :
    run_command envSleep "find / -name x" none = (1, "Command timed out")
    ∧ (run_command envExn "unknowncmd" none).1 = 1
    ∧ (run_command envExn "unknowncmd" none).2 = "No such file or directory" :=
  ⟨(c10_failure_codes envSleep "find / -name x" none).1 ⟨1000, 0, []⟩ rfl (by norm_num),
   ((c10_failure_codes envExn "unknowncmd" none).2 _ rfl).1,
   ((c10_failure_codes envExn "unknowncmd" none).2 _ rfl).2⟩
